import Mathlib

/-!
Verification development for the sampled PyBaMM core: the electrolyte
cation-conservation component, the thermal base submodel, and the
fast single particle-size-distribution submodel.  Arrays of a
discretised field are embedded as `List ℚ`; symbolic expression trees
are embedded as the inductive type `Sym` with a concrete evaluator.
-/

namespace PyBaMM

/-! ## Discretised fields -/

/-- Pointwise negation of a field, `-v` on an array. -/
def negL (l : List ℚ) : List ℚ := l.map (fun a => -a)

/-- Pointwise addition of two fields. -/
def addL (a b : List ℚ) : List ℚ := List.zipWith (· + ·) a b

/-- Scalar times field, `s * j` on an array. -/
def smulL (q : ℚ) (l : List ℚ) : List ℚ := l.map (fun a => q * a)

/-- The zero field of length `n`. -/
def zeroField (n : ℕ) : List ℚ := List.replicate n 0

/-! ## Electrolyte component (`models/components/electrolyte.py`) -/

/-- Parameters used by the electrolyte component: `param.c0` and `param.s`. -/
structure ElectrolyteParam where
  c0 : ℚ
  s : ℚ

/-- The mesh of the electrolyte component, exposing cell centres `xc`. -/
structure Mesh where
  xc : List ℚ

/-- The spatial operator object the electrolyte component holds a reference
to.  The discrete `grad` and `div` stencils themselves are produced by the
mesh machinery, which is outside the sampled sources, so they are kept
abstract here: every statement about `cation_conservation` is proved for an
arbitrary pair of operators. -/
structure Operators where
  grad : List ℚ → List ℚ
  div : List ℚ → List ℚ

/-- An `Electrolyte` instance after `set_simulation` has bound the
parameters, the operators and the mesh. -/
structure Electrolyte where
  param : ElectrolyteParam
  operators : Operators
  mesh : Mesh

/-- `Electrolyte.set_simulation(param, operators, mesh)`: binds the three
references on the instance. -/
def Electrolyte.set_simulation (param : ElectrolyteParam) (operators : Operators)
    (mesh : Mesh) : Electrolyte :=
  ⟨param, operators, mesh⟩

/-- The default no-flux boundary conditions `Electrolyte._bcs_cation_flux`,
`(np.array([0]), np.array([0]))`. -/
def Electrolyte.bcs_cation_flux : List ℚ × List ℚ := ([0], [0])

/-- `Electrolyte.cation_conservation(c, j, flux_bcs)`: computes the internal
flux `-grad(c)`, falls back to the no-flux default when `flux_bcs` is `None`,
concatenates `[flux_bc_left, N_internal, flux_bc_right]`, and returns
`-div(N) + param.s * j`. -/
def Electrolyte.cation_conservation (e : Electrolyte) (c j : List ℚ)
    (flux_bcs : Option (List ℚ × List ℚ)) : List ℚ :=
  let N_internal := negL (e.operators.grad c)
  let bcs := flux_bcs.getD Electrolyte.bcs_cation_flux
  let N := bcs.1 ++ N_internal ++ bcs.2
  addL (negL (e.operators.div N)) (smulL e.param.s j)

/-- Following the specification text for the cation-conservation assembly:
the flux array is `Concatenation([bc_left, interior flux -grad(c), bc_right])`
in that fixed order, and the returned time derivative is
`-div(N) + param.s * j` over that assembled array. -/
def cation_conservation_spec (e : Electrolyte) (c j L R : List ℚ) : List ℚ :=
  addL (negL (e.operators.div (L ++ negL (e.operators.grad c) ++ R)))
    (smulL e.param.s j)

/-! ## Python invocation model for `Electrolyte.initial_conditions`

The source declares `def initial_conditions():` inside the class with no
`self` parameter.  A bound method call `instance.initial_conditions()`
supplies the instance as one positional argument, so the call is checked
against the declared parameter count before any of the body runs. -/

/-- Outcome of a Python call: a returned value, or an uncaught `TypeError`. -/
inductive PyOutcome (α : Type) where
  | ok : α → PyOutcome α
  | typeError : PyOutcome α
deriving DecidableEq

/-- The body of `Electrolyte.initial_conditions`: were it ever entered with a
bound instance, it would return `{"c": param.c0 * np.ones_like(mesh.xc)}`. -/
def initial_conditions_body (e : Electrolyte) : List (String × List ℚ) :=
  [("c", e.mesh.xc.map (fun _ => e.param.c0))]

/-- Modelled from Python calling semantics (the interpreter is outside the
sampled sources): a bound method call `obj.m()` passes the instance as the
single positional argument; the interpreter raises `TypeError` before
entering the body unless the function was declared with exactly one
positional parameter.  The instance is returned unchanged either way. -/
def invokeBoundNoArgCall {α : Type} (declaredParams : ℕ)
    (body : Electrolyte → α) (self : Electrolyte) : PyOutcome α × Electrolyte :=
  if declaredParams = 1 then (.ok (body self), self) else (.typeError, self)

/-- The number of positional parameters in the source declaration
`def initial_conditions():` — there is no `self`, so zero. -/
def initial_conditions_declaredParams : ℕ := 0

/-- The call `instance.initial_conditions()` as executed by the interpreter:
the zero-parameter declaration is invoked with the bound instance. -/
def initial_conditions_call (e : Electrolyte) :
    PyOutcome (List (String × List ℚ)) × Electrolyte :=
  invokeBoundNoArgCall initial_conditions_declaredParams initial_conditions_body e

/-! ## Claims about the electrolyte component -/

/-- Claim C1: for every concentration array `c`, interfacial current density
`j` and supplied boundary pair `(L, R)`, `cation_conservation` assembles the
flux array with `L` first, the interior flux `-grad(c)` second and `R` last
(for every domain size, i.e. for all argument lists), and returns
`dcdt = -div(N) + param.s * j` over that assembled array. -/
theorem cation_conservation_assembly_order (e : Electrolyte) (c j L R : List ℚ) :
    e.cation_conservation c j (some (L, R)) = cation_conservation_spec e c j L R ∧
    (L ++ negL (e.operators.grad c) ++ R).take L.length = L ∧
    ((L ++ negL (e.operators.grad c) ++ R).drop L.length).take
      (negL (e.operators.grad c)).length = negL (e.operators.grad c) ∧
    (L ++ negL (e.operators.grad c) ++ R).drop
      (L.length + (negL (e.operators.grad c)).length) = R := by
  refine ⟨rfl, ?_, ?_, ?_⟩
  · rw [List.append_assoc, List.take_left]
  · rw [List.append_assoc, List.drop_left, List.take_left]
  · rw [List.append_assoc, ← List.drop_drop, List.drop_left, List.drop_left]

/-- Claim C4: a call with `flux_bcs = None` uses the no-flux default
`([0], [0])` from `_bcs_cation_flux`, and gives the same result as the
explicit call with boundary pair `([0], [0])`. -/
theorem cation_conservation_default_bcs (e : Electrolyte) (c j : List ℚ) :
    Electrolyte.bcs_cation_flux = ([0], [0]) ∧
    e.cation_conservation c j none =
      e.cation_conservation c j (some (([0] : List ℚ), ([0] : List ℚ))) := by
  exact ⟨rfl, rfl⟩

/-- Claim C10: invoking `initial_conditions` as a bound method always raises
`TypeError` (the declaration has no `self` parameter, so the one positional
argument supplied by the bound call cannot be accepted), the `{"c": c0}`
dictionary is never returned, and the instance is unchanged by the failed
call. -/
theorem initial_conditions_call_type_error (e : Electrolyte) :
    initial_conditions_call e = (.typeError, e) ∧
    ∀ d : List (String × List ℚ), (initial_conditions_call e).1 ≠ .ok d := by
  refine ⟨rfl, fun d h => PyOutcome.noConfusion h⟩

/-! ## Symbolic expression tree

The expression nodes exercised by the sampled submodels: scalars, named
parameters, named variables, arithmetic, inner products, gradients,
broadcasts, three-child concatenations, x-averaging, and min/max over a
field. -/

inductive Sym where
  | scalar : ℚ → Sym
  | param : String → Sym
  | var : String → Sym
  | add : Sym → Sym → Sym
  | sub : Sym → Sym → Sym
  | mul : Sym → Sym → Sym
  | div : Sym → Sym → Sym
  | neg : Sym → Sym
  | powi : Sym → ℤ → Sym
  | inner : Sym → Sym → Sym
  | grad : Sym → Sym
  | fullBroadcast : Sym → String → Sym
  | primaryBroadcast : Sym → String → Sym
  | concat : Sym → Sym → Sym → Sym
  | xAverage : Sym → Sym
  | minE : Sym → Sym
  | maxE : Sym → Sym
deriving DecidableEq

/-- `orphans` of a three-child `Concatenation`, as used by the unpacking
`T_n, T_s, T_p = T.orphans`; any other node cannot be unpacked into three. -/
def orphans3 : Sym → Option (Sym × Sym × Sym)
  | .concat a b c => some (a, b, c)
  | _ => none

/-- A discretised value: either a scalar or a field (array over a domain). -/
inductive Val where
  | s : ℚ → Val
  | f : List ℚ → Val
deriving DecidableEq

/-- Lift a unary arithmetic operation over a value, mapping over fields. -/
def lift1 (op : ℚ → ℚ) : Val → Val
  | .s a => .s (op a)
  | .f l => .f (l.map op)

/-- Lift a binary arithmetic operation over values, broadcasting a scalar
against a field and zipping two fields pointwise. -/
def lift2 (op : ℚ → ℚ → ℚ) : Val → Val → Val
  | .s a, .s b => .s (op a b)
  | .s a, .f l => .f (l.map (fun b => op a b))
  | .f l, .s b => .f (l.map (fun a => op a b))
  | .f la, .f lb => .f (List.zipWith op la lb)

/-- A value viewed as an array (a scalar is a one-point array). -/
def Val.toL : Val → List ℚ
  | .s q => [q]
  | .f l => l

/-- Modelled from the spec: the discrete gradient stencil produced by the
mesh (the mesh machinery is outside the sampled sources).  Forward
differences on a collocated grid, one-sided at the right boundary, so the
output length equals the input length. -/
def gradList : List ℚ → List ℚ
  | [] => []
  | [_] => [0]
  | a :: b :: rest => (b - a) :: gradList (b :: rest)

/-- The minimum entry of a field (`pybamm.min`). -/
def listMin : List ℚ → ℚ
  | [] => 0
  | x :: xs => xs.foldl min x

/-- The maximum entry of a field (`pybamm.max`). -/
def listMax : List ℚ → ℚ
  | [] => 0
  | x :: xs => xs.foldl max x

/-- Number of mesh cells in each primary sub-domain of the through-cell
direction. -/
structure MeshSizes where
  nn : ℕ
  ns : ℕ
  np : ℕ

/-- Modelled from the spec: `mesh[domain_name]` returns the discretised
coordinates of a domain; here only the cell counts matter.  The current
collector is a single point in the 1D through-cell evaluation. -/
def domSize (m : MeshSizes) : String → ℕ
  | "negative electrode" => m.nn
  | "separator" => m.ns
  | "positive electrode" => m.np
  | "current collector" => 1
  | _ => 0

/-- Modelled from the spec: evaluation of a symbolic expression after
discretisation on the mesh `m`, with parameter valuation `pv` and variable
environment `ve`.  Broadcasts replicate a scalar across the target domain;
the x-average is the mesh-weighted mean (uniform weights on the uniform
sampled mesh); min/max fold over the field. -/
def evalE (pv : String → ℚ) (ve : String → Val) (m : MeshSizes) : Sym → Val
  | .scalar q => .s q
  | .param n => .s (pv n)
  | .var n => ve n
  | .add a b => lift2 (· + ·) (evalE pv ve m a) (evalE pv ve m b)
  | .sub a b => lift2 (· - ·) (evalE pv ve m a) (evalE pv ve m b)
  | .mul a b => lift2 (· * ·) (evalE pv ve m a) (evalE pv ve m b)
  | .div a b => lift2 (· / ·) (evalE pv ve m a) (evalE pv ve m b)
  | .neg a => lift1 (fun x => -x) (evalE pv ve m a)
  | .powi a z => lift1 (fun x => x ^ z) (evalE pv ve m a)
  | .inner a b => lift2 (· * ·) (evalE pv ve m a) (evalE pv ve m b)
  | .grad a =>
      match evalE pv ve m a with
      | .s _ => .s 0
      | .f l => .f (gradList l)
  | .fullBroadcast v dom =>
      match evalE pv ve m v with
      | .s q => .f (List.replicate (domSize m dom) q)
      | .f l => .f l
  | .primaryBroadcast v dom =>
      match evalE pv ve m v with
      | .s q => .f (List.replicate (domSize m dom) q)
      | .f l => .f l
  | .concat a b c =>
      .f ((evalE pv ve m a).toL ++ (evalE pv ve m b).toL ++ (evalE pv ve m c).toL)
  | .xAverage a =>
      match evalE pv ve m a with
      | .s q => .s q
      | .f l => .s (l.sum / l.length)
  | .minE a =>
      match evalE pv ve m a with
      | .s q => .s q
      | .f l => .s (listMin l)
  | .maxE a =>
      match evalE pv ve m a with
      | .s q => .s q
      | .f l => .s (listMax l)

/-! ## Thermal base submodel (`models/submodels/thermal/base_thermal.py`) -/

/-- `dict.update`: entries of the update take priority over the old dict. -/
def dictUpdate (vars upd : List (String × Sym)) : List (String × Sym) :=
  upd ++ vars

/-- `BaseThermal._x_average(var, var_cn, var_cp)`: the x-average over the
whole cell including the current collectors,
`(l_cn * var_cn + x_average(var) + l_cp * var_cp) / l`. -/
def x_average_whole_cell (v v_cn v_cp : Sym) : Sym :=
  .div (.add (.add (.mul (.param "l_cn") v_cn) (.xAverage v))
      (.mul (.param "l_cp") v_cp))
    (.param "l")

/-- The dimensional scaling applied to every heating output,
`param.i_typ * param.potential_scale * Q / param.L_x`. -/
def dimHeat (q : Sym) : Sym :=
  .div (.mul (.mul (.param "i_typ") (.param "potential_scale")) q) (.param "L_x")

/-- The body of `BaseThermal._get_standard_coupled_variables` once the input
variables have been looked up: builds `Q_ohm`, `Q_rxn`, `Q_rev`, the total
`Q = Q_ohm + Q_rxn + Q_rev`, the whole-cell x-average (which overwrites the
plain `pybamm.x_average(Q)`) and the volume average, and returns the update
entries in source order. -/
def coupled_core (yz : Sym → Sym)
    (T_n T_p j_n j_p eta_r_n eta_r_p dUdT_n dUdT_p i_e phi_e i_s_n i_s_p
      phi_s_n phi_s_p Q_ohm_s_cn Q_ohm_s_cp : Sym) : List (String × Sym) :=
  let Q_ohm_s_n := Sym.neg (.inner i_s_n (.grad phi_s_n))
  let Q_ohm_s_s := Sym.fullBroadcast (.scalar 0) "separator"
  let Q_ohm_s_p := Sym.neg (.inner i_s_p (.grad phi_s_p))
  let Q_ohm_s := Sym.concat Q_ohm_s_n Q_ohm_s_s Q_ohm_s_p
  let Q_ohm_e := Sym.neg (.inner i_e (.grad phi_e))
  let Q_ohm := Sym.add Q_ohm_s Q_ohm_e
  let Q_rxn_n := Sym.mul j_n eta_r_n
  let Q_rxn_p := Sym.mul j_p eta_r_p
  let Q_rxn := Sym.concat Q_rxn_n (.fullBroadcast (.scalar 0) "separator") Q_rxn_p
  let Q_rev_n := Sym.mul (.mul j_n (.add (.powi (.param "Theta") (-1)) T_n)) dUdT_n
  let Q_rev_p := Sym.mul (.mul j_p (.add (.powi (.param "Theta") (-1)) T_p)) dUdT_p
  let Q_rev := Sym.concat Q_rev_n (.fullBroadcast (.scalar 0) "separator") Q_rev_p
  let Q := Sym.add (.add Q_ohm Q_rxn) Q_rev
  let Q_av := Sym.xAverage Q
  let Q_av := x_average_whole_cell Q Q_ohm_s_cn Q_ohm_s_cp
  let Q_vol_av := yz Q_av
  [("Ohmic heating", Q_ohm),
   ("Ohmic heating [A.V.m-3]", dimHeat Q_ohm),
   ("Irreversible electrochemical heating", Q_rxn),
   ("Irreversible electrochemical heating [A.V.m-3]", dimHeat Q_rxn),
   ("Reversible heating", Q_rev),
   ("Reversible heating [A.V.m-3]", dimHeat Q_rev),
   ("Total heating", Q),
   ("Total heating [A.V.m-3]", dimHeat Q),
   ("X-averaged total heating", Q_av),
   ("X-averaged total heating [A.V.m-3]", dimHeat Q_av),
   ("Volume-averaged total heating", Q_vol_av),
   ("Volume-averaged total heating [A.V.m-3]", dimHeat Q_vol_av)]

/-- `BaseThermal._get_standard_coupled_variables(variables)`.  The abstract
methods `_current_collector_heating` and `_yz_average` are implemented by
subclasses outside the sampled sources, so they are taken as parameters
`cch` and `yz`.  Every required upstream variable is looked up in the
shared dictionary; the update of the twelve heating entries is returned. -/
def get_standard_coupled_variables
    (cch : List (String × Sym) → Sym × Sym) (yz : Sym → Sym)
    (vars : List (String × Sym)) : Option (List (String × Sym)) := do
  let T ← List.lookup "Cell temperature" vars
  let o ← orphans3 T
  let j_n ← List.lookup "Negative electrode interfacial current density" vars
  let j_p ← List.lookup "Positive electrode interfacial current density" vars
  let eta_r_n ← List.lookup "Negative electrode reaction overpotential" vars
  let eta_r_p ← List.lookup "Positive electrode reaction overpotential" vars
  let dUdT_n ← List.lookup "Negative electrode entropic change" vars
  let dUdT_p ← List.lookup "Positive electrode entropic change" vars
  let i_e ← List.lookup "Electrolyte current density" vars
  let phi_e ← List.lookup "Electrolyte potential" vars
  let i_s_n ← List.lookup "Negative electrode current density" vars
  let i_s_p ← List.lookup "Positive electrode current density" vars
  let phi_s_n ← List.lookup "Negative electrode potential" vars
  let phi_s_p ← List.lookup "Positive electrode potential" vars
  let qcc := cch vars
  some (dictUpdate vars
    (coupled_core yz o.1 o.2.2 j_n j_p eta_r_n eta_r_p dUdT_n dUdT_p i_e phi_e
      i_s_n i_s_p phi_s_n phi_s_p qcc.1 qcc.2))

/-- `BaseThermal._get_standard_fundamental_variables(T, T_cn, T_cp)`.  The
abstract `_flux_law` and `_yz_average` are parameters; `T` is unpacked into
its three orphans and the dictionary is returned exactly in source order. -/
def get_standard_fundamental_variables
    (fluxLaw yz : Sym → Sym) (T T_cn T_cp : Sym) :
    Option (List (String × Sym)) := do
  let o ← orphans3 T
  let T_n := o.1
  let T_s := o.2.1
  let T_p := o.2.2
  let T_x_av := Sym.xAverage T
  let T_vol_av := yz T_x_av
  let q := fluxLaw T
  some [("Negative current collector temperature", T_cn),
        ("Negative current collector temperature [K]",
          .mul (.param "Delta_T") T_cn),
        ("X-averaged negative electrode temperature", .xAverage T_n),
        ("X-averaged negative electrode temperature [K]",
          .add (.mul (.param "Delta_T") (.xAverage T_n)) (.param "T_ref")),
        ("Negative electrode temperature", T_n),
        ("Negative electrode temperature [K]",
          .add (.mul (.param "Delta_T") T_n) (.param "T_ref")),
        ("X-averaged separator temperature", .xAverage T_s),
        ("X-averaged separator temperature [K]",
          .add (.mul (.param "Delta_T") (.xAverage T_s)) (.param "T_ref")),
        ("Separator temperature", T_s),
        ("Separator temperature [K]",
          .add (.mul (.param "Delta_T") T_s) (.param "T_ref")),
        ("X-averaged positive electrode temperature", .xAverage T_p),
        ("X-averaged positive electrode temperature [K]",
          .add (.mul (.param "Delta_T") (.xAverage T_p)) (.param "T_ref")),
        ("Positive electrode temperature", T_p),
        ("Positive electrode temperature [K]",
          .add (.mul (.param "Delta_T") T_p) (.param "T_ref")),
        ("Positive current collector temperature", T_cp),
        ("Positive current collector temperature [K]",
          .mul (.param "Delta_T") T_cp),
        ("Cell temperature", T),
        ("Cell temperature [K]",
          .add (.mul (.param "Delta_T") T) (.param "T_ref")),
        ("X-averaged cell temperature", T_x_av),
        ("X-averaged cell temperature [K]",
          .add (.mul (.param "Delta_T") T_x_av) (.param "T_ref")),
        ("Volume-averaged cell temperature", T_vol_av),
        ("Volume-averaged cell temperature [K]",
          .add (.mul (.param "Delta_T") T_vol_av) (.param "T_ref")),
        ("Heat flux", q),
        ("Heat flux [W.m-2]", q)]

/-! ## Fast single particle-size-distribution submodel
(`models/submodels/particle/size_distribution/fast_single_distribution.py`) -/

/-- The electrode tag of a particle submodel. -/
inductive Dom where
  | Negative
  | Positive
deriving DecidableEq

/-- `self.domain`: the string tag used for variable-name keys. -/
def Dom.name : Dom → String
  | .Negative => "Negative"
  | .Positive => "Positive"

/-- `self.domain.lower()`. -/
def Dom.lower : Dom → String
  | .Negative => "negative"
  | .Positive => "positive"

/-- The parameters consumed by `set_initial_conditions`: the supplied initial
concentration profiles over the through-cell coordinate `x`. -/
structure ParticleParam where
  c_n_init : ℚ → ℚ
  c_p_init : ℚ → ℚ

/-- `FastSingleSizeDistribution.set_rhs(variables)`: looks up the surface
concentration distribution, the interfacial current density distribution and
the particle sizes `R`, and registers
`rhs[c] = -3 * j / a_R_n / R` (negative) or
`rhs[c] = -3 * j / a_R_p / gamma_p / R` (positive). -/
def fastSingle_set_rhs (d : Dom) (vars : List (String × Sym)) :
    Option (List (Sym × Sym)) := do
  let c_s_surf_xav_distribution ← List.lookup
    ("X-averaged " ++ d.lower ++ " particle surface concentration distribution")
    vars
  let j_xav_distribution ← List.lookup
    ("X-averaged " ++ d.lower ++
      " electrode interfacial current density distribution") vars
  let R ← List.lookup (d.name ++ " particle sizes") vars
  match d with
  | .Negative =>
      some [(c_s_surf_xav_distribution,
        .div (.div (.mul (.scalar (-3)) j_xav_distribution) (.param "a_R_n")) R)]
  | .Positive =>
      some [(c_s_surf_xav_distribution,
        .div (.div (.div (.mul (.scalar (-3)) j_xav_distribution)
          (.param "a_R_p")) (.param "gamma_p")) R)]

/-- `FastSingleSizeDistribution.set_initial_conditions(variables)`: the
initial value of the representative particle surface concentration is the
supplied profile at the fixed boundary coordinate, `c_n_init(0)` for the
negative electrode and `c_p_init(1)` for the positive electrode. -/
def fastSingle_set_initial_conditions (d : Dom) (p : ParticleParam)
    (vars : List (String × Sym)) : Option (Sym × ℚ) := do
  let c_s_surf_xav_distribution ← List.lookup
    ("X-averaged " ++ d.lower ++ " particle surface concentration distribution")
    vars
  match d with
  | .Negative => some (c_s_surf_xav_distribution, p.c_n_init 0)
  | .Positive => some (c_s_surf_xav_distribution, p.c_p_init 1)

/-- The closed set of event kinds. -/
inductive EventType where
  | TERMINATION
  | WARNING
  | INTERPOLANT_EXTRAPOLATION
deriving DecidableEq

/-- A named termination event with its symbolic indicator expression. -/
structure Event where
  name : String
  expr : Sym
  eventType : EventType

/-- The tolerance `tol = 1e-4` used by `set_events`. -/
def tol : ℚ := 1 / 10000

/-- `FastSingleSizeDistribution.set_events(variables)`: appends the two
termination events `pybamm.min(c) - tol` and `(1 - tol) - pybamm.max(c)`
for the surface concentration distribution (the submodel starts with an
empty event list). -/
def fastSingle_set_events (d : Dom) (vars : List (String × Sym)) :
    Option (List Event) := do
  let c_s_surf_xav_distribution ← List.lookup
    ("X-averaged " ++ d.lower ++ " particle surface concentration distribution")
    vars
  some [⟨"Minumum " ++ d.lower ++ " particle surface concentration",
          .sub (.minE c_s_surf_xav_distribution) (.scalar tol), .TERMINATION⟩,
        ⟨"Maximum " ++ d.lower ++ " particle surface concentration",
          .sub (.scalar (1 - tol)) (.maxE c_s_surf_xav_distribution),
          .TERMINATION⟩]

/-! ## The sampled coupled-variables fixture
(`tests/unit/test_models/test_submodels/test_thermal/coupled_variables.py`),
extended with the `Cell temperature` entry the coupled build reads. -/

/-- The fixture `a_n`: `FullBroadcast(Scalar(0), ["negative electrode"], ...)`. -/
def a_n_fix : Sym := .fullBroadcast (.scalar 0) "negative electrode"

/-- The fixture `a_s`: `FullBroadcast(Scalar(0), ["separator"], ...)`. -/
def a_s_fix : Sym := .fullBroadcast (.scalar 0) "separator"

/-- The fixture `a_p`: `FullBroadcast(Scalar(0), ["positive electrode"], ...)`. -/
def a_p_fix : Sym := .fullBroadcast (.scalar 0) "positive electrode"

/-- The fixture `i_cell`: `PrimaryBroadcast(Scalar(1), "current collector")`. -/
def i_cell_fix : Sym := .primaryBroadcast (.scalar 1) "current collector"

/-- The sampled fixture dictionary, with the cell temperature entry
`Concatenation(tn, ts, tp)` for arbitrary sub-domain temperatures. -/
def fixtureVars (tn ts tp : Sym) : List (String × Sym) :=
  [("Negative electrode interfacial current density", a_n_fix),
   ("Positive electrode interfacial current density", a_p_fix),
   ("Negative electrode reaction overpotential", a_n_fix),
   ("Positive electrode reaction overpotential", a_p_fix),
   ("Negative electrode entropic change", a_n_fix),
   ("Positive electrode entropic change", a_p_fix),
   ("Electrolyte potential", .concat a_n_fix a_s_fix a_p_fix),
   ("Electrolyte current density", .concat a_n_fix a_s_fix a_p_fix),
   ("Negative electrode potential", a_n_fix),
   ("Negative electrode current density", a_n_fix),
   ("Positive electrode potential", a_p_fix),
   ("Positive electrode current density", a_p_fix),
   ("Current collector current density", i_cell_fix),
   ("Cell temperature", .concat tn ts tp)]

/-! ## Helper lemmas on fields -/

theorem gradList_replicate_zero :
    ∀ n : ℕ, gradList (List.replicate n (0 : ℚ)) = List.replicate n 0
  | 0 => rfl
  | 1 => rfl
  | n + 2 => by
      have ih := gradList_replicate_zero (n + 1)
      simp only [List.replicate_succ] at ih ⊢
      rw [gradList, ih]
      norm_num

theorem zipWith_mul_zero_left :
    ∀ l : List ℚ,
      List.zipWith (· * ·) (List.replicate l.length (0 : ℚ)) l =
        List.replicate l.length 0
  | [] => rfl
  | x :: xs => by
      simp only [List.length_cons, List.replicate_succ, List.zipWith_cons_cons,
        zero_mul, zipWith_mul_zero_left xs]

theorem zipWith_mul_replicate_zero (n : ℕ) (l : List ℚ) (h : l.length = n) :
    List.zipWith (· * ·) (List.replicate n (0 : ℚ)) l = List.replicate n 0 := by
  subst h
  exact zipWith_mul_zero_left l

/-! ## Shape of a successful coupled-variable build -/

/-- Any successful run of `get_standard_coupled_variables` returns the input
dictionary updated with the twelve `coupled_core` heating entries applied to
the looked-up upstream expressions. -/
theorem get_coupled_shape
    (cch : List (String × Sym) → Sym × Sym) (yz : Sym → Sym)
    (vars out : List (String × Sym))
    (h : get_standard_coupled_variables cch yz vars = some out) :
    ∃ T_n T_p j_n j_p eta_r_n eta_r_p dUdT_n dUdT_p i_e phi_e i_s_n i_s_p
        phi_s_n phi_s_p,
      out = dictUpdate vars (coupled_core yz T_n T_p j_n j_p eta_r_n eta_r_p
        dUdT_n dUdT_p i_e phi_e i_s_n i_s_p phi_s_n phi_s_p
        (cch vars).1 (cch vars).2) := by
  unfold get_standard_coupled_variables at h
  obtain ⟨T, -, h⟩ := Option.bind_eq_some.mp h
  obtain ⟨⟨T_n, T_s, T_p⟩, -, h⟩ := Option.bind_eq_some.mp h
  obtain ⟨j_n, -, h⟩ := Option.bind_eq_some.mp h
  obtain ⟨j_p, -, h⟩ := Option.bind_eq_some.mp h
  obtain ⟨e_n, -, h⟩ := Option.bind_eq_some.mp h
  obtain ⟨e_p, -, h⟩ := Option.bind_eq_some.mp h
  obtain ⟨d_n, -, h⟩ := Option.bind_eq_some.mp h
  obtain ⟨d_p, -, h⟩ := Option.bind_eq_some.mp h
  obtain ⟨i_e, -, h⟩ := Option.bind_eq_some.mp h
  obtain ⟨phi_e, -, h⟩ := Option.bind_eq_some.mp h
  obtain ⟨i_s_n, -, h⟩ := Option.bind_eq_some.mp h
  obtain ⟨i_s_p, -, h⟩ := Option.bind_eq_some.mp h
  obtain ⟨phi_s_n, -, h⟩ := Option.bind_eq_some.mp h
  obtain ⟨phi_s_p, -, h⟩ := Option.bind_eq_some.mp h
  exact ⟨T_n, T_p, j_n, j_p, e_n, e_p, d_n, d_p, i_e, phi_e, i_s_n, i_s_p,
    phi_s_n, phi_s_p, (Option.some.inj h).symm⟩

/-- A zero current-collector heating pair, used to instantiate the abstract
`_current_collector_heating`. -/
def cchZ : List (String × Sym) → Sym × Sym := fun _ => (.scalar 0, .scalar 0)

/-- The identity `_yz_average`, as in a 0D current-collector submodel. -/
def yzId : Sym → Sym := fun q => q

/-- The output dictionary of the coupled build on the sampled fixture. -/
def fixtureOut : List (String × Sym) :=
  (get_standard_coupled_variables cchZ yzId
    (fixtureVars (.var "T_n") (.var "T_s") (.var "T_p"))).getD []

/-- Claim C2: in every successful coupled-variable build, the total heating
entry is exactly the symbolic sum of the ohmic, irreversible reaction and
reversible entries, `Q = Q_ohm + Q_rxn + Q_rev`, whatever the input
variables are (zero or nonzero interfacial currents). -/
theorem total_heating_symbolic_sum
    (cch : List (String × Sym) → Sym × Sym) (yz : Sym → Sym)
    (vars out : List (String × Sym))
    (h : get_standard_coupled_variables cch yz vars = some out) :
    ∃ Q_ohm Q_rxn Q_rev,
      List.lookup "Ohmic heating" out = some Q_ohm ∧
      List.lookup "Irreversible electrochemical heating" out = some Q_rxn ∧
      List.lookup "Reversible heating" out = some Q_rev ∧
      List.lookup "Total heating" out = some (.add (.add Q_ohm Q_rxn) Q_rev) := by
  obtain ⟨T_n, T_p, j_n, j_p, e_n, e_p, d_n, d_p, i_e, phi_e, i_s_n, i_s_p,
    phi_s_n, phi_s_p, hout⟩ := get_coupled_shape cch yz vars out h
  subst hout
  exact ⟨_, _, _, rfl, rfl, rfl, rfl⟩

/-- Witness for C2 on the sampled fixture (zero interfacial currents). -/
theorem total_heating_symbolic_sum_witness :
    ∃ Q_ohm Q_rxn Q_rev,
      List.lookup "Ohmic heating" fixtureOut = some Q_ohm ∧
      List.lookup "Irreversible electrochemical heating" fixtureOut =
        some Q_rxn ∧
      List.lookup "Reversible heating" fixtureOut = some Q_rev ∧
      List.lookup "Total heating" fixtureOut =
        some (.add (.add Q_ohm Q_rxn) Q_rev) :=
  total_heating_symbolic_sum cchZ yzId
    (fixtureVars (.var "T_n") (.var "T_s") (.var "T_p")) fixtureOut rfl

/-- Claim C8: the X-averaged total heating entry of every successful coupled
build equals the whole-cell mesh-weighted average
`(l_cn * Q_ohm_s_cn + x_average(Q) + l_cp * Q_ohm_s_cp) / l` over both
current collectors, and is not the plain `x_average(Q)` over only the
negative electrode, separator and positive electrode. -/
theorem x_averaged_total_heating_whole_cell
    (cch : List (String × Sym) → Sym × Sym) (yz : Sym → Sym)
    (vars out : List (String × Sym))
    (h : get_standard_coupled_variables cch yz vars = some out) :
    ∃ Q,
      List.lookup "Total heating" out = some Q ∧
      List.lookup "X-averaged total heating" out =
        some (x_average_whole_cell Q (cch vars).1 (cch vars).2) ∧
      x_average_whole_cell Q (cch vars).1 (cch vars).2 ≠ .xAverage Q := by
  obtain ⟨T_n, T_p, j_n, j_p, e_n, e_p, d_n, d_p, i_e, phi_e, i_s_n, i_s_p,
    phi_s_n, phi_s_p, hout⟩ := get_coupled_shape cch yz vars out h
  subst hout
  refine ⟨_, rfl, rfl, fun hcontra => Sym.noConfusion hcontra⟩

/-- Witness for C8 on the sampled fixture. -/
theorem x_averaged_total_heating_whole_cell_witness :
    ∃ Q,
      List.lookup "Total heating" fixtureOut = some Q ∧
      List.lookup "X-averaged total heating" fixtureOut =
        some (x_average_whole_cell Q
          (cchZ (fixtureVars (.var "T_n") (.var "T_s") (.var "T_p"))).1
          (cchZ (fixtureVars (.var "T_n") (.var "T_s") (.var "T_p"))).2) ∧
      x_average_whole_cell Q
          (cchZ (fixtureVars (.var "T_n") (.var "T_s") (.var "T_p"))).1
          (cchZ (fixtureVars (.var "T_n") (.var "T_s") (.var "T_p"))).2 ≠
        .xAverage Q :=
  x_averaged_total_heating_whole_cell cchZ yzId
    (fixtureVars (.var "T_n") (.var "T_s") (.var "T_p")) fixtureOut rfl

/-- Claim C3: on the sampled coupled-variables fixture (all interfacial
current densities, overpotentials, entropic changes, potentials and current
densities set to the zero field) each heating term of the coupled build —
`Q_ohm`, `Q_rxn`, `Q_rev` and `Q` — evaluates to the zero field on every
sub-domain (negative electrode, separator, positive electrode), for every
mesh size and arbitrary sub-domain temperature fields. -/
theorem fixture_heating_terms_zero
    (cch : List (String × Sym) → Sym × Sym) (yz : Sym → Sym)
    (pv : String → ℚ) (ve : String → Val) (m : MeshSizes)
    (tn ts tp : Sym) (ltn ltp : List ℚ)
    (htn : evalE pv ve m tn = .f ltn) (hltn : ltn.length = m.nn)
    (htp : evalE pv ve m tp = .f ltp) (hltp : ltp.length = m.np) :
    ∃ out,
      get_standard_coupled_variables cch yz (fixtureVars tn ts tp) =
        some out ∧
      (∃ e, List.lookup "Ohmic heating" out = some e ∧
        evalE pv ve m e =
          .f (zeroField m.nn ++ zeroField m.ns ++ zeroField m.np)) ∧
      (∃ e, List.lookup "Irreversible electrochemical heating" out = some e ∧
        evalE pv ve m e =
          .f (zeroField m.nn ++ zeroField m.ns ++ zeroField m.np)) ∧
      (∃ e, List.lookup "Reversible heating" out = some e ∧
        evalE pv ve m e =
          .f (zeroField m.nn ++ zeroField m.ns ++ zeroField m.np)) ∧
      (∃ e, List.lookup "Total heating" out = some e ∧
        evalE pv ve m e =
          .f (zeroField m.nn ++ zeroField m.ns ++ zeroField m.np)) := by
  refine ⟨_, rfl, ⟨_, rfl, ?_⟩, ⟨_, rfl, ?_⟩, ⟨_, rfl, ?_⟩, ⟨_, rfl, ?_⟩⟩
  · simp [evalE, a_n_fix, a_s_fix, a_p_fix, lift2, lift1, Val.toL, domSize,
      zeroField, gradList_replicate_zero, List.zipWith_replicate,
      List.map_replicate, ← List.replicate_add]
  · simp [evalE, a_n_fix, a_s_fix, a_p_fix, lift2, lift1, Val.toL, domSize,
      zeroField, gradList_replicate_zero, List.zipWith_replicate,
      List.map_replicate, ← List.replicate_add]
  · simp [evalE, a_n_fix, a_s_fix, a_p_fix, lift2, lift1, Val.toL, domSize,
      zeroField, gradList_replicate_zero, List.zipWith_replicate,
      List.map_replicate, htn, htp, zipWith_mul_replicate_zero, hltn, hltp,
      ← List.replicate_add]
  · simp [evalE, a_n_fix, a_s_fix, a_p_fix, lift2, lift1, Val.toL, domSize,
      zeroField, gradList_replicate_zero, List.zipWith_replicate,
      List.map_replicate, htn, htp, zipWith_mul_replicate_zero, hltn, hltp,
      ← List.replicate_add]

/-- Witness for C3: one cell per sub-domain, uniform temperature value 5,
every parameter valued 7. -/
theorem fixture_heating_terms_zero_witness :
    ∃ out,
      get_standard_coupled_variables cchZ yzId
          (fixtureVars (.var "T_n") (.var "T_s") (.var "T_p")) = some out ∧
      (∃ e, List.lookup "Ohmic heating" out = some e ∧
        evalE (fun _ => 7) (fun _ => .f [5]) ⟨1, 1, 1⟩ e =
          .f (zeroField 1 ++ zeroField 1 ++ zeroField 1)) ∧
      (∃ e, List.lookup "Irreversible electrochemical heating" out = some e ∧
        evalE (fun _ => 7) (fun _ => .f [5]) ⟨1, 1, 1⟩ e =
          .f (zeroField 1 ++ zeroField 1 ++ zeroField 1)) ∧
      (∃ e, List.lookup "Reversible heating" out = some e ∧
        evalE (fun _ => 7) (fun _ => .f [5]) ⟨1, 1, 1⟩ e =
          .f (zeroField 1 ++ zeroField 1 ++ zeroField 1)) ∧
      (∃ e, List.lookup "Total heating" out = some e ∧
        evalE (fun _ => 7) (fun _ => .f [5]) ⟨1, 1, 1⟩ e =
          .f (zeroField 1 ++ zeroField 1 ++ zeroField 1)) :=
  fixture_heating_terms_zero cchZ yzId (fun _ => 7) (fun _ => .f [5])
    ⟨1, 1, 1⟩ (.var "T_n") (.var "T_s") (.var "T_p") [5] [5] rfl rfl rfl rfl

/-! ## Claim C9: dimensionless and dimensional fundamental variables -/

/-- Counterexample for C9 as stated: in a concrete fundamental-variable
build, the dimensional entry for the negative current collector temperature
is `Delta_T * T_cn`, which is not the temperature scaling transform
`Delta_T * T_cn + T_ref` used for all other temperatures; moreover the
dimensional heat-flux entry is identical to the dimensionless one. -/
theorem fundamental_unit_scaling_counterexample :
    ∃ d, get_standard_fundamental_variables (fun t => .neg (.grad t)) yzId
        (.concat (.var "T_n") (.var "T_s") (.var "T_p")) (.var "T_cn")
        (.var "T_cp") = some d ∧
      List.lookup "Negative current collector temperature" d =
        some (.var "T_cn") ∧
      List.lookup "Negative current collector temperature [K]" d =
        some (.mul (.param "Delta_T") (.var "T_cn")) ∧
      Sym.mul (.param "Delta_T") (.var "T_cn") ≠
        .add (.mul (.param "Delta_T") (.var "T_cn")) (.param "T_ref") ∧
      List.lookup "Heat flux" d = List.lookup "Heat flux [W.m-2]" d :=
  ⟨_, rfl, rfl, rfl, fun h => Sym.noConfusion h, rfl⟩

/-- Claim C9 as amended: for every fundamental thermal quantity the
dictionary contains both the dimensionless key and the trailing-unit key;
the dimensional electrode, separator and cell temperatures are
`Delta_T * T + T_ref`, while the current-collector dimensional temperatures
are `Delta_T * T` with no `T_ref` offset and the dimensional heat flux
equals the dimensionless heat flux unchanged. -/
theorem fundamental_unit_entries (fluxLaw yz : Sym → Sym)
    (T_n T_s T_p T_cn T_cp : Sym) :
    ∃ d, get_standard_fundamental_variables fluxLaw yz
        (.concat T_n T_s T_p) T_cn T_cp = some d ∧
      List.lookup "Negative current collector temperature" d = some T_cn ∧
      List.lookup "Negative current collector temperature [K]" d =
        some (.mul (.param "Delta_T") T_cn) ∧
      List.lookup "X-averaged negative electrode temperature" d =
        some (.xAverage T_n) ∧
      List.lookup "X-averaged negative electrode temperature [K]" d =
        some (.add (.mul (.param "Delta_T") (.xAverage T_n)) (.param "T_ref")) ∧
      List.lookup "Negative electrode temperature" d = some T_n ∧
      List.lookup "Negative electrode temperature [K]" d =
        some (.add (.mul (.param "Delta_T") T_n) (.param "T_ref")) ∧
      List.lookup "X-averaged separator temperature" d =
        some (.xAverage T_s) ∧
      List.lookup "X-averaged separator temperature [K]" d =
        some (.add (.mul (.param "Delta_T") (.xAverage T_s)) (.param "T_ref")) ∧
      List.lookup "Separator temperature" d = some T_s ∧
      List.lookup "Separator temperature [K]" d =
        some (.add (.mul (.param "Delta_T") T_s) (.param "T_ref")) ∧
      List.lookup "X-averaged positive electrode temperature" d =
        some (.xAverage T_p) ∧
      List.lookup "X-averaged positive electrode temperature [K]" d =
        some (.add (.mul (.param "Delta_T") (.xAverage T_p)) (.param "T_ref")) ∧
      List.lookup "Positive electrode temperature" d = some T_p ∧
      List.lookup "Positive electrode temperature [K]" d =
        some (.add (.mul (.param "Delta_T") T_p) (.param "T_ref")) ∧
      List.lookup "Positive current collector temperature" d = some T_cp ∧
      List.lookup "Positive current collector temperature [K]" d =
        some (.mul (.param "Delta_T") T_cp) ∧
      List.lookup "Cell temperature" d = some (.concat T_n T_s T_p) ∧
      List.lookup "Cell temperature [K]" d =
        some (.add (.mul (.param "Delta_T") (.concat T_n T_s T_p))
          (.param "T_ref")) ∧
      List.lookup "X-averaged cell temperature" d =
        some (.xAverage (.concat T_n T_s T_p)) ∧
      List.lookup "X-averaged cell temperature [K]" d =
        some (.add (.mul (.param "Delta_T") (.xAverage (.concat T_n T_s T_p)))
          (.param "T_ref")) ∧
      List.lookup "Volume-averaged cell temperature" d =
        some (yz (.xAverage (.concat T_n T_s T_p))) ∧
      List.lookup "Volume-averaged cell temperature [K]" d =
        some (.add (.mul (.param "Delta_T")
          (yz (.xAverage (.concat T_n T_s T_p)))) (.param "T_ref")) ∧
      List.lookup "Heat flux" d = some (fluxLaw (.concat T_n T_s T_p)) ∧
      List.lookup "Heat flux [W.m-2]" d =
        some (fluxLaw (.concat T_n T_s T_p)) :=
  ⟨_, rfl, rfl, rfl, rfl, rfl, rfl, rfl, rfl, rfl, rfl, rfl, rfl, rfl, rfl,
    rfl, rfl, rfl, rfl, rfl, rfl, rfl, rfl, rfl, rfl, rfl⟩

/-! ## Minimum and maximum membership lemmas -/

theorem foldl_min_mem : ∀ (xs : List ℚ) (x : ℚ), xs.foldl min x ∈ x :: xs
  | [], _ => by simp
  | y :: ys, x => by
      have h := foldl_min_mem ys (min x y)
      rw [List.foldl_cons]
      rcases List.mem_cons.mp h with h1 | h1
      · rcases min_choice x y with hc | hc
        · rw [h1, hc]; exact List.mem_cons_self _ _
        · rw [h1, hc]; simp
      · exact List.mem_cons_of_mem _ (List.mem_cons_of_mem _ h1)

theorem foldl_max_mem : ∀ (xs : List ℚ) (x : ℚ), xs.foldl max x ∈ x :: xs
  | [], _ => by simp
  | y :: ys, x => by
      have h := foldl_max_mem ys (max x y)
      rw [List.foldl_cons]
      rcases List.mem_cons.mp h with h1 | h1
      · rcases max_choice x y with hc | hc
        · rw [h1, hc]; exact List.mem_cons_self _ _
        · rw [h1, hc]; simp
      · exact List.mem_cons_of_mem _ (List.mem_cons_of_mem _ h1)

theorem listMin_mem (l : List ℚ) (h : l ≠ []) : listMin l ∈ l := by
  cases l with
  | nil => exact absurd rfl h
  | cons x xs => exact foldl_min_mem xs x

theorem listMax_mem (l : List ℚ) (h : l ≠ []) : listMax l ∈ l := by
  cases l with
  | nil => exact absurd rfl h
  | cons x xs => exact foldl_max_mem xs x

/-- Claim C5: for every registered surface-concentration field, the two
termination events of `set_events` are `min(c) - tol` and
`(1 - tol) - max(c)` with `tol = 1e-4`; each crosses zero exactly when the
concentration exits the band `[tol, 1 - tol]` on its side, and neither
event fires while the concentration stays strictly inside the band. -/
theorem set_events_tolerance_band
    (d : Dom) (pv : String → ℚ) (ve : String → Val) (m : MeshSizes)
    (l : List ℚ) (hl : l ≠ []) (hve : ve "c" = .f l) :
    ∃ e1 e2,
      fastSingle_set_events d
          [("X-averaged " ++ d.lower ++
            " particle surface concentration distribution", .var "c")] =
        some [e1, e2] ∧
      e1.eventType = .TERMINATION ∧ e2.eventType = .TERMINATION ∧
      evalE pv ve m e1.expr = .s (listMin l - tol) ∧
      evalE pv ve m e2.expr = .s ((1 - tol) - listMax l) ∧
      (listMin l - tol < 0 ↔ listMin l < tol) ∧
      (listMin l - tol = 0 ↔ listMin l = tol) ∧
      ((1 - tol) - listMax l < 0 ↔ 1 - tol < listMax l) ∧
      ((1 - tol) - listMax l = 0 ↔ listMax l = 1 - tol) ∧
      ((∀ x ∈ l, tol < x ∧ x < 1 - tol) →
        0 < listMin l - tol ∧ 0 < (1 - tol) - listMax l) := by
  refine ⟨⟨"Minumum " ++ d.lower ++ " particle surface concentration",
      .sub (.minE (.var "c")) (.scalar tol), .TERMINATION⟩,
    ⟨"Maximum " ++ d.lower ++ " particle surface concentration",
      .sub (.scalar (1 - tol)) (.maxE (.var "c")), .TERMINATION⟩,
    ?_, rfl, rfl, ?_, ?_, sub_neg, sub_eq_zero, sub_neg,
    sub_eq_zero.trans eq_comm, fun hband => ?_⟩
  · cases d <;> rfl
  · simp [evalE, hve, lift2]
  · simp [evalE, hve, lift2]
  · constructor
    · exact sub_pos.mpr ((hband _ (listMin_mem l hl)).1)
    · exact sub_pos.mpr ((hband _ (listMax_mem l hl)).2)

/-- Witness for C5: the negative electrode with the one-point field `[1/2]`,
strictly inside the band. -/
theorem set_events_tolerance_band_witness :
    ∃ e1 e2,
      fastSingle_set_events .Negative
          [("X-averaged " ++ Dom.lower .Negative ++
            " particle surface concentration distribution", .var "c")] =
        some [e1, e2] ∧
      e1.eventType = .TERMINATION ∧ e2.eventType = .TERMINATION ∧
      evalE (fun _ => 0) (fun _ => .f [1/2]) ⟨1, 1, 1⟩ e1.expr =
        .s (listMin [1/2] - tol) ∧
      evalE (fun _ => 0) (fun _ => .f [1/2]) ⟨1, 1, 1⟩ e2.expr =
        .s ((1 - tol) - listMax [1/2]) ∧
      (listMin [1/2] - tol < 0 ↔ listMin [1/2] < tol) ∧
      (listMin [1/2] - tol = 0 ↔ listMin [1/2] = tol) ∧
      ((1 - tol) - listMax [1/2] < 0 ↔ 1 - tol < listMax [1/2]) ∧
      ((1 - tol) - listMax [1/2] = 0 ↔ listMax [1/2] = 1 - tol) ∧
      ((∀ x ∈ ([1/2] : List ℚ), tol < x ∧ x < 1 - tol) →
        0 < listMin [1/2] - tol ∧ 0 < (1 - tol) - listMax [1/2]) :=
  set_events_tolerance_band .Negative (fun _ => 0) (fun _ => .f [1/2])
    ⟨1, 1, 1⟩ [1/2] (by simp) rfl

/-- Claim C6: with a uniform nonzero particle-size array `R` and a zero
interfacial current density distribution, the right-hand side registered by
`set_rhs` for the surface concentration distribution evaluates to the zero
field, for either electrode. -/
theorem set_rhs_zero_current
    (d : Dom) (pv : String → ℚ) (ve : String → Val) (m : MeshSizes)
    (n : ℕ) (r : ℚ) (hr : r ≠ 0)
    (hj : ve "j" = .f (zeroField n)) (hR : ve "R" = .f (List.replicate n r)) :
    ∃ cv rhs,
      fastSingle_set_rhs d
          [("X-averaged " ++ d.lower ++
            " particle surface concentration distribution", .var "c"),
           ("X-averaged " ++ d.lower ++
            " electrode interfacial current density distribution", .var "j"),
           (d.name ++ " particle sizes", .var "R")] = some [(cv, rhs)] ∧
      evalE pv ve m rhs = .f (zeroField n) := by
  cases d
  case Negative =>
    refine ⟨_, _, rfl, ?_⟩
    simp [evalE, lift2, hj, hR, zeroField, List.map_replicate,
      List.zipWith_replicate]
  case Positive =>
    refine ⟨_, _, rfl, ?_⟩
    simp [evalE, lift2, hj, hR, zeroField, List.map_replicate,
      List.zipWith_replicate]

/-- Witness for C6: the negative electrode, two mesh points, uniform
particle size `1/2`. -/
theorem set_rhs_zero_current_witness :
    ∃ cv rhs,
      fastSingle_set_rhs .Negative
          [("X-averaged " ++ Dom.lower .Negative ++
            " particle surface concentration distribution", .var "c"),
           ("X-averaged " ++ Dom.lower .Negative ++
            " electrode interfacial current density distribution", .var "j"),
           (Dom.name .Negative ++ " particle sizes", .var "R")] =
        some [(cv, rhs)] ∧
      evalE (fun _ => 3)
          (fun s => if s = "R" then .f (List.replicate 2 2)
            else .f (zeroField 2)) ⟨1, 1, 1⟩ rhs =
        .f (zeroField 2) :=
  set_rhs_zero_current .Negative (fun _ => 3)
    (fun s => if s = "R" then .f (List.replicate 2 2)
      else .f (zeroField 2)) ⟨1, 1, 1⟩ 2 2 two_ne_zero rfl rfl

/-- Claim C7: `set_initial_conditions` always sets the representative
initial surface concentration to the supplied profile evaluated at the
fixed boundary coordinate — `c_n_init(0)` for the negative electrode and
`c_p_init(1)` for the positive electrode — and the result depends on the
profile only through that boundary value, never through an average. -/
theorem set_initial_conditions_boundary_value (p q : ParticleParam) :
    fastSingle_set_initial_conditions .Negative p
        [("X-averaged negative particle surface concentration distribution",
          .var "c")] = some (.var "c", p.c_n_init 0) ∧
    fastSingle_set_initial_conditions .Positive p
        [("X-averaged positive particle surface concentration distribution",
          .var "c")] = some (.var "c", p.c_p_init 1) ∧
    (p.c_n_init 0 = q.c_n_init 0 →
      fastSingle_set_initial_conditions .Negative p
          [("X-averaged negative particle surface concentration distribution",
            .var "c")] =
        fastSingle_set_initial_conditions .Negative q
          [("X-averaged negative particle surface concentration distribution",
            .var "c")]) ∧
    (p.c_p_init 1 = q.c_p_init 1 →
      fastSingle_set_initial_conditions .Positive p
          [("X-averaged positive particle surface concentration distribution",
            .var "c")] =
        fastSingle_set_initial_conditions .Positive q
          [("X-averaged positive particle surface concentration distribution",
            .var "c")]) := by
  refine ⟨rfl, rfl, fun h => ?_, fun h => ?_⟩ <;>
    simp [fastSingle_set_initial_conditions, h]

/-- Witness for C7: two profiles that agree at the boundary coordinates but
differ elsewhere give the same initial conditions. -/
theorem set_initial_conditions_boundary_value_witness :
    fastSingle_set_initial_conditions .Negative
        ⟨fun x => x + 3, fun x => 2 * x⟩
        [("X-averaged negative particle surface concentration distribution",
          .var "c")] =
      some (.var "c", (0 : ℚ) + 3) ∧
    fastSingle_set_initial_conditions .Negative
        ⟨fun x => x + 3, fun x => 2 * x⟩
        [("X-averaged negative particle surface concentration distribution",
          .var "c")] =
      fastSingle_set_initial_conditions .Negative
        ⟨fun x => x * x + 3, fun x => x + 1⟩
        [("X-averaged negative particle surface concentration distribution",
          .var "c")] :=
  ⟨(set_initial_conditions_boundary_value ⟨fun x => x + 3, fun x => 2 * x⟩
      ⟨fun x => x * x + 3, fun x => x + 1⟩).1,
    (set_initial_conditions_boundary_value ⟨fun x => x + 3, fun x => 2 * x⟩
      ⟨fun x => x * x + 3, fun x => x + 1⟩).2.2.1 (by simp)⟩

end PyBaMM
